import Mathlib

/-!
Shallow embedding of the simulation core of the `spacegame` repository
(`src/game/physics.ts`, `src/game/engine.ts`, `src/game/constants.ts`,
`src/types/game.ts`).  JavaScript numbers are modelled as rationals; the
transcendental functions of the JavaScript `Math` object (`sqrt`, `cos`,
`sin`, `atan2`) are modelled by an explicit oracle structure `MathLib`
over which all theorems are universally quantified, together with the one
`Math` fact the engine's control flow relies on (`Math.sqrt(0) = 0`).
`Date.now()` is modelled as an explicit `now` argument, and `Math.PI` as
the exact rational value of the IEEE-754 double `Math.PI`.
-/

namespace SpaceGame

/-- `Vector2D` of `src/types/game.ts`. -/
structure Vector2D where
  x : ℚ
  y : ℚ
  deriving DecidableEq

/-- `Satellite` of `src/types/game.ts`. -/
structure Satellite where
  position : Vector2D
  velocity : Vector2D
  rotation : ℚ
  battery : ℚ
  deriving DecidableEq

/-- `Planet` of `src/types/game.ts`. -/
structure Planet where
  position : Vector2D
  radius : ℚ
  mass : ℚ
  deriving DecidableEq

/-- `Orb` of `src/types/game.ts`. -/
structure Orb where
  id : ℤ
  position : Vector2D
  velocity : Vector2D
  radius : ℚ
  collected : Bool
  deriving DecidableEq

/-- `CollectionEffect` of `src/types/game.ts`. -/
structure CollectionEffect where
  position : Vector2D
  startTime : ℚ
  points : ℚ
  deriving DecidableEq

/-- The crash-burst record created by `updateGameState` on planet collision. -/
structure CrashBurst where
  position : Vector2D
  startTime : ℚ
  deriving DecidableEq

/-- The discriminated status union `'playing' | 'won' | 'lost'`. -/
inductive GameStatus where
  | playing : GameStatus
  | won : GameStatus
  | lost : GameStatus
  deriving DecidableEq

/-- `GameState` of `src/types/game.ts`. -/
structure GameState where
  satellite : Satellite
  planet : Planet
  orbs : List Orb
  score : ℚ
  gameStatus : GameStatus
  isPaused : Bool
  collectionEffects : List CollectionEffect
  crashBurst : Option CrashBurst
  solarPanelsDeployed : Bool
  solarPanelDeployment : ℚ
  showTrajectoryPrediction : Bool
  sunAngle : ℚ
  deriving DecidableEq

/-- `GameConfig` of `src/types/game.ts` (field names of the interface). -/
structure GameConfig where
  canvasWidth : ℚ
  canvasHeight : ℚ
  satelliteSize : ℚ
  maxBattery : ℚ
  thrustPower : ℚ
  batteryConsumptionRate : ℚ
  gravitationalConstant : ℚ
  orbRadius : ℚ
  numberOfOrbs : ℕ
  pointsPerOrb : ℚ
  deriving DecidableEq

/-- The oracle for the JavaScript `Math` functions the core calls.  The only
bundled fact is `Math.sqrt(0) = 0`, which the engine's thrust gate relies on. -/
structure MathLib where
  sqrt : ℚ → ℚ
  cos : ℚ → ℚ
  sin : ℚ → ℚ
  atan2 : ℚ → ℚ → ℚ
  sqrt_zero : sqrt 0 = 0

/-- `GAME_CONFIG` of `src/game/constants.ts` (the reserve fields are labelled
with fuel terminology in that file; the `GameConfig` interface and the engine
use the battery names, with the same numeric values). -/
def GAME_CONFIG : GameConfig where
  canvasWidth := 800
  canvasHeight := 600
  satelliteSize := 20
  maxBattery := 100
  thrustPower := 3/10
  batteryConsumptionRate := 1/2
  gravitationalConstant := 5000
  orbRadius := 15
  numberOfOrbs := 8
  pointsPerOrb := 100

/-- The exact rational value of the IEEE-754 double `Math.PI`. -/
def mathPI : ℚ := 884279719003555 / 281474976710656

/-- `Math.floor` on a rational: rounding toward negative infinity. -/
def jsMathFloor (q : ℚ) : ℤ := Int.fdiv q.num q.den

/-- JavaScript `a || b` for an optional numeric argument: `undefined` and `0`
are falsy and select the default. -/
def jsOr (o : Option ℚ) (d : ℚ) : ℚ :=
  match o with
  | none => d
  | some v => if v = 0 then d else v

/-- `createVector` of `src/game/physics.ts`. -/
def createVector (x y : ℚ) : Vector2D := ⟨x, y⟩

/-- `addVectors` of `src/game/physics.ts`. -/
def addVectors (v1 v2 : Vector2D) : Vector2D := ⟨v1.x + v2.x, v1.y + v2.y⟩

/-- `scaleVector` of `src/game/physics.ts`. -/
def scaleVector (v : Vector2D) (scale : ℚ) : Vector2D := ⟨v.x * scale, v.y * scale⟩

/-- `vectorMagnitude` of `src/game/physics.ts`. -/
def vectorMagnitude (m : MathLib) (v : Vector2D) : ℚ := m.sqrt (v.x * v.x + v.y * v.y)

/-- `normalizeVector` of `src/game/physics.ts`. -/
def normalizeVector (m : MathLib) (v : Vector2D) : Vector2D :=
  let mag := vectorMagnitude m v
  if mag = 0 then ⟨0, 0⟩ else ⟨v.x / mag, v.y / mag⟩

/-- `distance` of `src/game/physics.ts`. -/
def distance (m : MathLib) (p1 p2 : Vector2D) : ℚ :=
  let dx := p2.x - p1.x
  let dy := p2.y - p1.y
  m.sqrt (dx * dx + dy * dy)

/-- `rotateVector` of `src/game/physics.ts`. -/
def rotateVector (m : MathLib) (v : Vector2D) (angleRadians : ℚ) : Vector2D :=
  let c := m.cos angleRadians
  let s := m.sin angleRadians
  ⟨v.x * c - v.y * s, v.x * s + v.y * c⟩

/-- `calculateGravity` of `src/game/physics.ts`. -/
def calculateGravity (m : MathLib) (cfg : GameConfig) (satellite : Satellite)
    (planet : Planet) : Vector2D :=
  let dx := planet.position.x - satellite.position.x
  let dy := planet.position.y - satellite.position.y
  let dist := m.sqrt (dx * dx + dy * dy)
  if dist = 0 then ⟨0, 0⟩
  else
    let force := cfg.gravitationalConstant * planet.mass / (dist * dist)
    ⟨dx / dist * force, dy / dist * force⟩

/-- `applyThrust` of `src/game/physics.ts`; the pair returns the updated
satellite and the `batteryUsed` report. -/
def applyThrust (cfg : GameConfig) (satellite : Satellite) (direction : Vector2D)
    (deltaTime : ℚ) : Satellite × ℚ :=
  if satellite.battery ≤ 0 then (satellite, 0)
  else
    let thrust := scaleVector direction (cfg.thrustPower * deltaTime)
    let newVelocity := addVectors satellite.velocity thrust
    let batteryUsed := cfg.batteryConsumptionRate * deltaTime
    ({ satellite with
        velocity := newVelocity
        battery := max 0 (satellite.battery - batteryUsed) },
      batteryUsed)

/-- `updateSatellitePosition` of `src/game/physics.ts`. -/
def updateSatellitePosition (m : MathLib) (cfg : GameConfig) (satellite : Satellite)
    (planet : Planet) (deltaTime : ℚ) : Satellite :=
  let gravity := calculateGravity m cfg satellite planet
  let newVelocity := addVectors satellite.velocity (scaleVector gravity deltaTime)
  let newPosition := addVectors satellite.position (scaleVector newVelocity deltaTime)
  { satellite with position := newPosition, velocity := newVelocity }

/-- `checkCollisionWithPlanet` of `src/game/physics.ts`. -/
def checkCollisionWithPlanet (m : MathLib) (cfg : GameConfig) (satellite : Satellite)
    (planet : Planet) : Bool :=
  decide (distance m satellite.position planet.position < planet.radius + cfg.satelliteSize / 2)

/-- `checkOutOfBounds` of `src/game/physics.ts`. -/
def checkOutOfBounds (cfg : GameConfig) (satellite : Satellite)
    (canvasWidth canvasHeight : ℚ) : Bool :=
  let margin := cfg.satelliteSize
  decide (satellite.position.x < -margin) || decide (satellite.position.x > canvasWidth + margin) ||
    decide (satellite.position.y < -margin) || decide (satellite.position.y > canvasHeight + margin)

/-- `checkOrbCollection` of `src/game/physics.ts`: the ids of the uncollected
orbs within collection range, in list order. -/
def checkOrbCollection (m : MathLib) (cfg : GameConfig) (satellite : Satellite)
    (orbs : List Orb) : List ℤ :=
  (orbs.filter fun orb =>
      !orb.collected &&
        decide (distance m satellite.position orb.position < orb.radius + cfg.satelliteSize / 2)).map
    fun orb => orb.id

/-- `updateOrbPosition` of `src/game/physics.ts`. -/
def updateOrbPosition (m : MathLib) (orb : Orb) (planet : Planet) (deltaTime : ℚ) : Orb :=
  if orb.collected then orb
  else
    let dx := orb.position.x - planet.position.x
    let dy := orb.position.y - planet.position.y
    let currentAngle := m.atan2 dy dx
    let currentRadius := m.sqrt (dx * dx + dy * dy)
    let baseAngularVelocity : ℚ := 8/100
    let averageRadius : ℚ := 275
    let angularVelocity := baseAngularVelocity * (averageRadius / currentRadius)
    let newAngle := currentAngle + angularVelocity * deltaTime
    let ellipseVariation := 1 + 15/100 * m.cos (newAngle * 2)
    let newRadius := currentRadius * ellipseVariation / (1 + 15/100 * m.cos (currentAngle * 2))
    let newPosition : Vector2D :=
      ⟨planet.position.x + m.cos newAngle * newRadius,
        planet.position.y + m.sin newAngle * newRadius⟩
    let tangentVelocity := newRadius * angularVelocity
    let newVelocity : Vector2D :=
      ⟨-(m.sin newAngle) * tangentVelocity, m.cos newAngle * tangentVelocity⟩
    { orb with position := newPosition, velocity := newVelocity }

/-- The four thrust input flags of `src/game/engine.ts`. -/
structure ThrustInputs where
  up : Bool
  down : Bool
  left : Bool
  right : Bool
  deriving DecidableEq

/-- The local thrust vector accumulated from the input flags
(`engine.ts` lines 40 to 44). -/
def localThrust (t : ThrustInputs) : Vector2D :=
  let x0 : ℚ := 0
  let y0 : ℚ := 0
  let x1 := if t.up then x0 + 1 else x0
  let x2 := if t.down then x1 - 1 else x1
  let y1 := if t.left then y0 - 1 else y0
  let y2 := if t.right then y1 + 1 else y1
  ⟨x2, y2⟩

/-- The thrust block of `updateGameState` (`engine.ts` lines 40 to 59):
normalize the local input vector, rotate it into world space and apply the
thrust, but only when the vector has positive magnitude. -/
def thrustPhase (m : MathLib) (cfg : GameConfig) (satellite : Satellite)
    (t : ThrustInputs) (deltaTime : ℚ) : Satellite :=
  let localThrustVector := localThrust t
  let thrustMagnitude :=
    m.sqrt (localThrustVector.x * localThrustVector.x +
      localThrustVector.y * localThrustVector.y)
  if thrustMagnitude > 0 then
    let norm : Vector2D :=
      ⟨localThrustVector.x / thrustMagnitude, localThrustVector.y / thrustMagnitude⟩
    let worldThrustVector := rotateVector m norm satellite.rotation
    (applyThrust cfg satellite worldThrustVector deltaTime).1
  else satellite

/-- The satellite after the thrust gate of `engine.ts` lines 36 to 60: the
thrust block only runs when the solar panels are not deployed. -/
def satAfterThrust (m : MathLib) (cfg : GameConfig) (s : GameState)
    (t : ThrustInputs) (deltaTime : ℚ) : Satellite :=
  if s.solarPanelsDeployed then s.satellite
  else thrustPhase m cfg s.satellite t deltaTime

/-- The animated panel deployment scalar (`engine.ts` lines 66 to 74). -/
def newDeployment (s : GameState) (deltaTime : ℚ) : ℚ :=
  if s.solarPanelsDeployed then min 1 (s.solarPanelDeployment + 1 * deltaTime)
  else max (3/10) (s.solarPanelDeployment - 1 * deltaTime)

/-- The sunlight predicate of `engine.ts` lines 77 to 85. -/
def inSunlightCalc (m : MathLib) (s : GameState) (satellite : Satellite) : Bool :=
  let sunDirX := m.cos s.sunAngle
  let sunDirY := m.sin s.sunAngle
  let satToSunX := satellite.position.x - s.planet.position.x
  let satToSunY := satellite.position.y - s.planet.position.y
  let satDist := m.sqrt (satToSunX * satToSunX + satToSunY * satToSunY)
  let satDirX := satToSunX / satDist
  let satDirY := satToSunY / satDist
  let lightFactor := -(satDirX * sunDirX + satDirY * sunDirY)
  decide (lightFactor > -(3/10))

/-- The battery management block of `engine.ts` lines 87 to 111. -/
def satAfterPower (m : MathLib) (cfg : GameConfig) (s : GameState)
    (satellite : Satellite) (deltaTime : ℚ) : Satellite :=
  let solarPanelDeployment := newDeployment s deltaTime
  if solarPanelDeployment > 8/10 then
    if inSunlightCalc m s satellite && decide (satellite.battery < cfg.maxBattery) then
      let rechargeRate := 2 * (solarPanelDeployment - 8/10) / (2/10)
      { satellite with
          battery := min cfg.maxBattery (satellite.battery + rechargeRate * deltaTime) }
    else if !inSunlightCalc m s satellite && decide (satellite.battery > 0) then
      { satellite with battery := max 0 (satellite.battery - 3/10 * deltaTime) }
    else satellite
  else if satellite.battery > 0 then
    { satellite with battery := max 0 (satellite.battery - 5/10 * deltaTime) }
  else satellite

/-- The rotation update of `engine.ts` lines 114 to 116: face the velocity
vector whenever it is non-zero. -/
def satAfterRotation (m : MathLib) (satellite : Satellite) : Satellite :=
  if satellite.velocity.x ≠ 0 ∨ satellite.velocity.y ≠ 0 then
    { satellite with rotation := m.atan2 satellite.velocity.y satellite.velocity.x }
  else satellite

/-- The satellite produced by one step: thrust, then gravity integration, then
battery management, then the rotation update (`engine.ts` lines 34 to 116). -/
def steppedSatellite (m : MathLib) (cfg : GameConfig) (s : GameState)
    (t : ThrustInputs) (deltaTime : ℚ) : Satellite :=
  satAfterRotation m
    (satAfterPower m cfg s
      (updateSatellitePosition m cfg (satAfterThrust m cfg s t deltaTime) s.planet deltaTime)
      deltaTime)

/-- The sun-angle advance of `engine.ts` lines 118 to 123. -/
def advanceSunAngle (a deltaTime : ℚ) : ℚ :=
  let sunRotationSpeed := mathPI * 2 / 300
  let sunAngle := a + sunRotationSpeed * deltaTime
  if sunAngle > mathPI * 2 then sunAngle - mathPI * 2 else sunAngle

/-- The debris update of `engine.ts` lines 126 to 128. -/
def orbsAfterMotion (m : MathLib) (s : GameState) (deltaTime : ℚ) : List Orb :=
  s.orbs.map fun orb => updateOrbPosition m orb s.planet deltaTime

/-- The ids newly collected this step (`engine.ts` line 131). -/
def newlyCollectedIds (m : MathLib) (cfg : GameConfig) (s : GameState)
    (t : ThrustInputs) (deltaTime : ℚ) : List ℤ :=
  checkOrbCollection m cfg (steppedSatellite m cfg s t deltaTime) (orbsAfterMotion m s deltaTime)

/-- The orbs whose collection is processed this step (`engine.ts` lines 136
to 150). -/
def collectedThisStep (m : MathLib) (cfg : GameConfig) (s : GameState)
    (t : ThrustInputs) (deltaTime : ℚ) : List Orb :=
  (orbsAfterMotion m s deltaTime).filter fun orb =>
    (newlyCollectedIds m cfg s t deltaTime).contains orb.id

/-- The orb list after this step's collections (`engine.ts` lines 136 to 150). -/
def orbsAfterCollection (m : MathLib) (cfg : GameConfig) (s : GameState)
    (t : ThrustInputs) (deltaTime : ℚ) : List Orb :=
  (orbsAfterMotion m s deltaTime).map fun orb =>
    if (newlyCollectedIds m cfg s t deltaTime).contains orb.id then
      { orb with collected := true }
    else orb

/-- `updateGameState` of `src/game/engine.ts`. -/
def updateGameState (m : MathLib) (cfg : GameConfig) (now : ℚ) (gameState : GameState)
    (thrustInputs : ThrustInputs) (deltaTime : ℚ)
    (canvasWidth canvasHeight : Option ℚ) : GameState :=
  if gameState.isPaused = true ∨ gameState.gameStatus ≠ GameStatus.playing then gameState
  else
    let satellite := steppedSatellite m cfg gameState thrustInputs deltaTime
    let solarPanelDeployment := newDeployment gameState deltaTime
    let sunAngle := advanceSunAngle gameState.sunAngle deltaTime
    let newOrbs := orbsAfterCollection m cfg gameState thrustInputs deltaTime
    let newScore := gameState.score +
      cfg.pointsPerOrb * ((collectedThisStep m cfg gameState thrustInputs deltaTime).length : ℚ)
    let newCollectionEffects := gameState.collectionEffects ++
      (collectedThisStep m cfg gameState thrustInputs deltaTime).map fun orb =>
        CollectionEffect.mk ⟨orb.position.x, orb.position.y⟩ now cfg.pointsPerOrb
    let activeEffects := newCollectionEffects.filter fun effect =>
      decide (now - effect.startTime < 1000)
    let allOrbsCollected := newOrbs.all fun orb => orb.collected
    let winNow := allOrbsCollected && decide (0 < newOrbs.length)
    let gameStatus1 := if winNow then GameStatus.won else gameState.gameStatus
    let newScore1 :=
      if winNow then newScore + ((jsMathFloor (satellite.battery * 10) : ℤ) : ℚ) else newScore
    let collided := checkCollisionWithPlanet m cfg satellite gameState.planet
    let crashBurst :=
      if collided && gameState.crashBurst.isNone then
        some (CrashBurst.mk satellite.position now)
      else gameState.crashBurst
    let gameStatus2 := if collided then GameStatus.lost else gameStatus1
    let gameStatus3 :=
      if checkOutOfBounds cfg satellite (jsOr canvasWidth cfg.canvasWidth)
          (jsOr canvasHeight cfg.canvasHeight) then GameStatus.lost
      else gameStatus2
    { gameState with
        satellite := satellite
        orbs := newOrbs
        score := newScore1
        gameStatus := gameStatus3
        collectionEffects := activeEffects
        crashBurst := crashBurst
        solarPanelDeployment := solarPanelDeployment
        sunAngle := sunAngle }

/-- A square-root table agreeing with the real square root at every argument
probed by the concrete runs below; used to build the concrete oracle instance
for witnesses and counterexamples. -/
def wSqrt (q : ℚ) : ℚ :=
  if q = 100 then 10 else if q = 400 then 20 else if q = 900 then 30 else 0

/-- The concrete oracle instance used by witnesses and counterexamples.  The
trigonometric entries are the exact values at angle zero; every concrete run
below is arranged so its outcome does not depend on them elsewhere. -/
def mathModel : MathLib where
  sqrt := wSqrt
  cos := fun _ => 1
  sin := fun _ => 0
  atan2 := fun _ _ => 0
  sqrt_zero := by norm_num [wSqrt]

/-- The all-false thrust input record. -/
def noInputs : ThrustInputs := ⟨false, false, false, false⟩

/-- A concrete paused mid-game state, used to instantiate witnesses. -/
def exPaused : GameState where
  satellite := ⟨⟨400, 300⟩, ⟨0, 0⟩, 0, 100⟩
  planet := ⟨⟨2000, 3000⟩, 40, 1000⟩
  orbs := []
  score := 0
  gameStatus := GameStatus.playing
  isPaused := true
  collectionEffects := []
  crashBurst := none
  solarPanelsDeployed := false
  solarPanelDeployment := 3/10
  showTrajectoryPrediction := true
  sunAngle := 0

/-- A concrete unpaused state with solar panels deployed. -/
def exDeployed : GameState :=
  { exPaused with isPaused := false, solarPanelsDeployed := true }

/-- A concrete satellite with an empty energy reserve. -/
def satLow : Satellite := ⟨⟨0, 0⟩, ⟨5, 5⟩, 0, 0⟩

/-- A concrete satellite with a full energy reserve. -/
def satHigh : Satellite := ⟨⟨0, 0⟩, ⟨5, 5⟩, 0, 100⟩

/-- Claim C1: when the state is paused or its status is not `playing`, one
step of `updateGameState` returns the input state itself, every field
unchanged. -/
theorem c1_paused_or_terminal_is_identity (m : MathLib) (cfg : GameConfig) (now : ℚ)
    (s : GameState) (t : ThrustInputs) (dt : ℚ) (w h : Option ℚ)
    (hp : s.isPaused = true ∨ s.gameStatus ≠ GameStatus.playing) :
    updateGameState m cfg now s t dt w h = s := by
  rw [updateGameState, if_pos hp]

/-- Witness for C1 at a concrete paused state. -/
theorem c1_witness :
    (exPaused.isPaused = true ∨ exPaused.gameStatus ≠ GameStatus.playing)
    ∧ updateGameState mathModel GAME_CONFIG 0 exPaused noInputs 1 none none = exPaused :=
  ⟨Or.inl rfl,
    c1_paused_or_terminal_is_identity mathModel GAME_CONFIG 0 exPaused noInputs 1 none none
      (Or.inl rfl)⟩

/-- Claim C6: thrust is energy-gated.  With an empty reserve `applyThrust`
is a no-op reporting zero consumption; with a positive reserve it adds
`direction × thrustPower × dt` to the velocity and consumes
`batteryConsumptionRate × dt` floored at zero, reporting the consumed amount;
and with solar panels deployed the step ignores the thrust inputs entirely. -/
theorem c6_thrust_energy_gating (m : MathLib) (cfg : GameConfig) (now : ℚ) (s : GameState)
    (t : ThrustInputs) (dt : ℚ) (w h : Option ℚ) (sat : Satellite) (dir : Vector2D) :
    (sat.battery ≤ 0 → applyThrust cfg sat dir dt = (sat, 0))
    ∧ (0 < sat.battery →
        applyThrust cfg sat dir dt =
          ({ sat with
              velocity := addVectors sat.velocity (scaleVector dir (cfg.thrustPower * dt))
              battery := max 0 (sat.battery - cfg.batteryConsumptionRate * dt) },
            cfg.batteryConsumptionRate * dt))
    ∧ (s.solarPanelsDeployed = true →
        updateGameState m cfg now s t dt w h = updateGameState m cfg now s noInputs dt w h) := by
  refine ⟨fun hb => ?_, fun hb => ?_, fun hd => ?_⟩
  · rw [applyThrust, if_pos hb]
  · rw [applyThrust, if_neg (not_le.mpr hb)]
  · have hsat : satAfterThrust m cfg s t dt = satAfterThrust m cfg s noInputs dt := by
      rw [satAfterThrust, satAfterThrust, if_pos hd, if_pos hd]
    have hstep : steppedSatellite m cfg s t dt = steppedSatellite m cfg s noInputs dt := by
      rw [steppedSatellite, steppedSatellite, hsat]
    have hids : newlyCollectedIds m cfg s t dt = newlyCollectedIds m cfg s noInputs dt := by
      rw [newlyCollectedIds, newlyCollectedIds, hstep]
    have hcoll : collectedThisStep m cfg s t dt = collectedThisStep m cfg s noInputs dt := by
      rw [collectedThisStep, collectedThisStep, hids]
    have horbs : orbsAfterCollection m cfg s t dt = orbsAfterCollection m cfg s noInputs dt := by
      rw [orbsAfterCollection, orbsAfterCollection, hids]
    simp only [updateGameState, hstep, hcoll, horbs]

/-- Witness for C6 at concrete satellites and a concrete deployed state. -/
theorem c6_witness :
    satLow.battery ≤ 0 ∧ (0 : ℚ) < satHigh.battery ∧ exDeployed.solarPanelsDeployed = true
    ∧ applyThrust GAME_CONFIG satLow ⟨1, 0⟩ 2 = (satLow, 0)
    ∧ applyThrust GAME_CONFIG satHigh ⟨1, 0⟩ 2 =
        ({ satHigh with
            velocity := addVectors satHigh.velocity (scaleVector ⟨1, 0⟩ (GAME_CONFIG.thrustPower * 2))
            battery := max 0 (satHigh.battery - GAME_CONFIG.batteryConsumptionRate * 2) },
          GAME_CONFIG.batteryConsumptionRate * 2)
    ∧ updateGameState mathModel GAME_CONFIG 0 exDeployed ⟨true, true, true, true⟩ 2 none none
        = updateGameState mathModel GAME_CONFIG 0 exDeployed noInputs 2 none none := by
  refine ⟨le_refl _, by norm_num [satHigh], rfl, ?_, ?_, ?_⟩
  · exact (c6_thrust_energy_gating mathModel GAME_CONFIG 0 exDeployed noInputs 2 none none
      satLow ⟨1, 0⟩).1 (le_refl _)
  · exact (c6_thrust_energy_gating mathModel GAME_CONFIG 0 exDeployed noInputs 2 none none
      satHigh ⟨1, 0⟩).2.1 (by norm_num [satHigh])
  · exact (c6_thrust_energy_gating mathModel GAME_CONFIG 0 exDeployed
      ⟨true, true, true, true⟩ 2 none none satHigh ⟨1, 0⟩).2.2 rfl

/-- The motion integrator as the spec words it: first the velocity is updated
from gravity, then the position is advanced with the already-updated
velocity. -/
def integrateSpec (m : MathLib) (cfg : GameConfig) (sat : Satellite) (planet : Planet)
    (dt : ℚ) : Satellite :=
  let v' := addVectors sat.velocity (scaleVector (calculateGravity m cfg sat planet) dt)
  let x' := addVectors sat.position (scaleVector v' dt)
  { sat with position := x', velocity := v' }

/-- Claim C7: `updateSatellitePosition` is the semi-implicit Euler step of the
spec (position advanced with the updated velocity), and it leaves the other
satellite fields unchanged. -/
theorem c7_semi_implicit_euler (m : MathLib) (cfg : GameConfig) (sat : Satellite)
    (planet : Planet) (dt : ℚ) :
    updateSatellitePosition m cfg sat planet dt = integrateSpec m cfg sat planet dt
    ∧ (updateSatellitePosition m cfg sat planet dt).rotation = sat.rotation
    ∧ (updateSatellitePosition m cfg sat planet dt).battery = sat.battery :=
  ⟨rfl, rfl, rfl⟩

/-- Thrust inputs that cancel in satellite-local space build the zero local
vector. -/
lemma localThrust_cancel (t : ThrustInputs) (hud : t.up = t.down) (hlr : t.left = t.right) :
    localThrust t = ⟨0, 0⟩ := by
  obtain ⟨u, d, l, r⟩ := t
  simp only at hud hlr
  subst hud
  subst hlr
  cases u <;> cases l <;> norm_num [localThrust]

/-- With a zero local vector the thrust block is skipped (its guard compares
`Math.sqrt 0` with zero). -/
lemma thrustPhase_of_localThrust_zero (m : MathLib) (cfg : GameConfig) (sat : Satellite)
    (t : ThrustInputs) (dt : ℚ) (hz : localThrust t = ⟨0, 0⟩) :
    thrustPhase m cfg sat t dt = sat := by
  rw [thrustPhase, hz]
  have h0 : m.sqrt ((0 : ℚ) * 0 + 0 * 0) = 0 := by
    rw [show ((0 : ℚ) * 0 + 0 * 0) = 0 by norm_num, m.sqrt_zero]
  simp only [h0]
  norm_num

/-- Claim C10: when the pressed thrust inputs cancel in local space (up with
down, left with right, or all four), the thrust path does not run: the
satellite leaves the thrust gate unchanged and the whole step equals the step
with no thrust inputs at all. -/
theorem c10_cancelling_inputs_no_thrust (m : MathLib) (cfg : GameConfig) (now : ℚ)
    (s : GameState) (t : ThrustInputs) (dt : ℚ) (w h : Option ℚ)
    (hud : t.up = t.down) (hlr : t.left = t.right) :
    satAfterThrust m cfg s t dt = s.satellite
    ∧ updateGameState m cfg now s t dt w h = updateGameState m cfg now s noInputs dt w h := by
  have hz : localThrust t = ⟨0, 0⟩ := localThrust_cancel t hud hlr
  have hz0 : localThrust noInputs = ⟨0, 0⟩ := by norm_num [localThrust, noInputs]
  have hsat : satAfterThrust m cfg s t dt = s.satellite := by
    rw [satAfterThrust]
    split
    · rfl
    · exact thrustPhase_of_localThrust_zero m cfg s.satellite t dt hz
  have hsat' : satAfterThrust m cfg s noInputs dt = s.satellite := by
    rw [satAfterThrust]
    split
    · rfl
    · exact thrustPhase_of_localThrust_zero m cfg s.satellite noInputs dt hz0
  have hstep : steppedSatellite m cfg s t dt = steppedSatellite m cfg s noInputs dt := by
    rw [steppedSatellite, steppedSatellite, hsat, hsat']
  have hids : newlyCollectedIds m cfg s t dt = newlyCollectedIds m cfg s noInputs dt := by
    rw [newlyCollectedIds, newlyCollectedIds, hstep]
  have hcoll : collectedThisStep m cfg s t dt = collectedThisStep m cfg s noInputs dt := by
    rw [collectedThisStep, collectedThisStep, hids]
  have horbs : orbsAfterCollection m cfg s t dt = orbsAfterCollection m cfg s noInputs dt := by
    rw [orbsAfterCollection, orbsAfterCollection, hids]
  refine ⟨hsat, ?_⟩
  simp only [updateGameState, hstep, hcoll, horbs]

/-- Witness for C10: all four inputs pressed at once at a concrete state. -/
theorem c10_witness :
    (⟨true, true, true, true⟩ : ThrustInputs).up = (⟨true, true, true, true⟩ : ThrustInputs).down
    ∧ (⟨true, true, true, true⟩ : ThrustInputs).left
        = (⟨true, true, true, true⟩ : ThrustInputs).right
    ∧ satAfterThrust mathModel GAME_CONFIG exDeployed ⟨true, true, true, true⟩ 1
        = exDeployed.satellite
    ∧ updateGameState mathModel GAME_CONFIG 0 exDeployed ⟨true, true, true, true⟩ 1 none none
        = updateGameState mathModel GAME_CONFIG 0 exDeployed noInputs 1 none none := by
  refine ⟨rfl, rfl, ?_, ?_⟩
  · exact (c10_cancelling_inputs_no_thrust mathModel GAME_CONFIG 0 exDeployed
      ⟨true, true, true, true⟩ 1 none none rfl rfl).1
  · exact (c10_cancelling_inputs_no_thrust mathModel GAME_CONFIG 0 exDeployed
      ⟨true, true, true, true⟩ 1 none none rfl rfl).2

/-- Claim C8: the degenerate cases degrade to defined values: normalizing the
zero vector yields the zero vector, gravity at coincident positions yields the
zero vector, the debris update of an orb sitting exactly at the planet center
yields a defined orb with its identity intact, and every step yields a defined
state with one of the three statuses. -/
theorem c8_degenerate_cases_defined :
    (∀ m : MathLib, normalizeVector m ⟨0, 0⟩ = ⟨0, 0⟩)
    ∧ (∀ (m : MathLib) (cfg : GameConfig) (sat : Satellite) (planet : Planet),
        sat.position = planet.position → calculateGravity m cfg sat planet = ⟨0, 0⟩)
    ∧ (∀ (m : MathLib) (orb : Orb) (planet : Planet) (dt : ℚ),
        orb.position = planet.position →
          (updateOrbPosition m orb planet dt).id = orb.id ∧
            (updateOrbPosition m orb planet dt).collected = orb.collected)
    ∧ (∀ (m : MathLib) (cfg : GameConfig) (now : ℚ) (s : GameState) (t : ThrustInputs)
        (dt : ℚ) (w h : Option ℚ),
        (updateGameState m cfg now s t dt w h).gameStatus = GameStatus.playing ∨
          (updateGameState m cfg now s t dt w h).gameStatus = GameStatus.won ∨
          (updateGameState m cfg now s t dt w h).gameStatus = GameStatus.lost) := by
  refine ⟨fun m => ?_, fun m cfg sat planet hpos => ?_, fun m orb planet dt _ => ?_,
    fun m cfg now s t dt w h => ?_⟩
  · rw [normalizeVector]
    split
    · rfl
    · simp [Vector2D.mk.injEq, zero_div]
  · rw [calculateGravity, hpos]
    split
    · rfl
    · simp [Vector2D.mk.injEq, sub_self, zero_div]
  · rw [updateOrbPosition]
    split
    · exact ⟨rfl, rfl⟩
    · exact ⟨rfl, rfl⟩
  · rcases h : (updateGameState m cfg now s t dt w h).gameStatus with _ | _ | _
    · exact Or.inl rfl
    · exact Or.inr (Or.inl rfl)
    · exact Or.inr (Or.inr rfl)

/-- Witness for C8 at concrete inputs: the zero vector, a satellite sitting at
the planet center, and an orb sitting at the planet center. -/
theorem c8_witness :
    normalizeVector mathModel ⟨0, 0⟩ = ⟨0, 0⟩
    ∧ satLow.position = (⟨⟨0, 0⟩, 140, 1000⟩ : Planet).position
    ∧ calculateGravity mathModel GAME_CONFIG satLow ⟨⟨0, 0⟩, 140, 1000⟩ = ⟨0, 0⟩
    ∧ (⟨0, ⟨0, 0⟩, ⟨0, 0⟩, 15, false⟩ : Orb).position = (⟨⟨0, 0⟩, 140, 1000⟩ : Planet).position
    ∧ (updateOrbPosition mathModel ⟨0, ⟨0, 0⟩, ⟨0, 0⟩, 15, false⟩ ⟨⟨0, 0⟩, 140, 1000⟩ 1).id = 0
    ∧ ((updateGameState mathModel GAME_CONFIG 0 exDeployed noInputs 1 none none).gameStatus
          = GameStatus.playing ∨
        (updateGameState mathModel GAME_CONFIG 0 exDeployed noInputs 1 none none).gameStatus
          = GameStatus.won ∨
        (updateGameState mathModel GAME_CONFIG 0 exDeployed noInputs 1 none none).gameStatus
          = GameStatus.lost) := by
  refine ⟨c8_degenerate_cases_defined.1 mathModel, rfl,
    c8_degenerate_cases_defined.2.1 mathModel GAME_CONFIG satLow ⟨⟨0, 0⟩, 140, 1000⟩ rfl, rfl,
    (c8_degenerate_cases_defined.2.2.1 mathModel ⟨0, ⟨0, 0⟩, ⟨0, 0⟩, 15, false⟩
      ⟨⟨0, 0⟩, 140, 1000⟩ 1 rfl).1,
    c8_degenerate_cases_defined.2.2.2 mathModel GAME_CONFIG 0 exDeployed noInputs 1 none none⟩

/-- `applyThrust` keeps the battery within `[0, maxBattery]`. -/
lemma applyThrust_battery_bounds (cfg : GameConfig) (sat : Satellite) (dir : Vector2D)
    (dt : ℚ) (hrate : 0 ≤ cfg.batteryConsumptionRate) (hdt : 0 ≤ dt)
    (h0 : 0 ≤ sat.battery) (hmax : sat.battery ≤ cfg.maxBattery) :
    0 ≤ (applyThrust cfg sat dir dt).1.battery ∧
      (applyThrust cfg sat dir dt).1.battery ≤ cfg.maxBattery := by
  rw [applyThrust]
  split
  · exact ⟨h0, hmax⟩
  · dsimp
    have hc : 0 ≤ cfg.batteryConsumptionRate * dt := mul_nonneg hrate hdt
    exact ⟨le_max_left 0 _, max_le (by linarith) (by linarith)⟩

/-- The thrust gate keeps the battery within `[0, maxBattery]`. -/
lemma satAfterThrust_battery_bounds (m : MathLib) (cfg : GameConfig) (s : GameState)
    (t : ThrustInputs) (dt : ℚ) (hrate : 0 ≤ cfg.batteryConsumptionRate) (hdt : 0 ≤ dt)
    (h0 : 0 ≤ s.satellite.battery) (hmax : s.satellite.battery ≤ cfg.maxBattery) :
    0 ≤ (satAfterThrust m cfg s t dt).battery ∧
      (satAfterThrust m cfg s t dt).battery ≤ cfg.maxBattery := by
  rw [satAfterThrust]
  split
  · exact ⟨h0, hmax⟩
  · rw [thrustPhase]
    split
    · exact applyThrust_battery_bounds cfg s.satellite _ dt hrate hdt h0 hmax
    · exact ⟨h0, hmax⟩

/-- The gravity integration step does not touch the battery. -/
lemma updateSatellitePosition_battery (m : MathLib) (cfg : GameConfig) (sat : Satellite)
    (planet : Planet) (dt : ℚ) :
    (updateSatellitePosition m cfg sat planet dt).battery = sat.battery := rfl

/-- The battery management block keeps the battery within `[0, maxBattery]`. -/
lemma satAfterPower_battery_bounds (m : MathLib) (cfg : GameConfig) (s : GameState)
    (sat : Satellite) (dt : ℚ) (hdt : 0 ≤ dt)
    (h0 : 0 ≤ sat.battery) (hmax : sat.battery ≤ cfg.maxBattery) :
    0 ≤ (satAfterPower m cfg s sat dt).battery ∧
      (satAfterPower m cfg s sat dt).battery ≤ cfg.maxBattery := by
  rw [satAfterPower]
  split
  · rename_i hdep
    split
    · dsimp
      have hr : 0 ≤ 2 * (newDeployment s dt - 8/10) / (2/10) := by
        apply div_nonneg _ (by norm_num)
        linarith
      have hrdt : 0 ≤ 2 * (newDeployment s dt - 8/10) / (2/10) * dt := mul_nonneg hr hdt
      exact ⟨le_min (by linarith) (by linarith), min_le_left _ _⟩
    · split
      · dsimp
        have hd : 0 ≤ 3/10 * dt := by positivity
        exact ⟨le_max_left 0 _, max_le (by linarith) (by linarith)⟩
      · exact ⟨h0, hmax⟩
  · split
    · dsimp
      have hd : 0 ≤ 5/10 * dt := by positivity
      exact ⟨le_max_left 0 _, max_le (by linarith) (by linarith)⟩
    · exact ⟨h0, hmax⟩

/-- The rotation update does not touch the battery. -/
lemma satAfterRotation_battery (m : MathLib) (sat : Satellite) :
    (satAfterRotation m sat).battery = sat.battery := by
  rw [satAfterRotation]
  split
  · rfl
  · rfl

/-- The full per-step satellite pipeline keeps the battery within
`[0, maxBattery]`. -/
lemma steppedSatellite_battery_bounds (m : MathLib) (cfg : GameConfig) (s : GameState)
    (t : ThrustInputs) (dt : ℚ) (hrate : 0 ≤ cfg.batteryConsumptionRate) (hdt : 0 ≤ dt)
    (h0 : 0 ≤ s.satellite.battery) (hmax : s.satellite.battery ≤ cfg.maxBattery) :
    0 ≤ (steppedSatellite m cfg s t dt).battery ∧
      (steppedSatellite m cfg s t dt).battery ≤ cfg.maxBattery := by
  have h1 := satAfterThrust_battery_bounds m cfg s t dt hrate hdt h0 hmax
  rw [steppedSatellite, satAfterRotation_battery]
  refine satAfterPower_battery_bounds m cfg s _ dt hdt ?_ ?_
  · rw [updateSatellitePosition_battery]
    exact h1.1
  · rw [updateSatellitePosition_battery]
    exact h1.2

/-- Claim C4: a step keeps the battery inside `[0, maxBattery]`: every battery
change (thrust consumption, solar recharge, and both passive drain regimes) is
clamped to that interval. -/
theorem c4_battery_clamped (m : MathLib) (cfg : GameConfig) (now : ℚ) (s : GameState)
    (t : ThrustInputs) (dt : ℚ) (w h : Option ℚ)
    (hrate : 0 ≤ cfg.batteryConsumptionRate) (hdt : 0 ≤ dt)
    (h0 : 0 ≤ s.satellite.battery) (hmax : s.satellite.battery ≤ cfg.maxBattery) :
    0 ≤ (updateGameState m cfg now s t dt w h).satellite.battery ∧
      (updateGameState m cfg now s t dt w h).satellite.battery ≤ cfg.maxBattery := by
  rw [updateGameState]
  split
  · exact ⟨h0, hmax⟩
  · exact steppedSatellite_battery_bounds m cfg s t dt hrate hdt h0 hmax

/-- Witness for C4: a concrete unpaused deployed state with a full battery and
a positive time step. -/
theorem c4_witness :
    (0 : ℚ) ≤ GAME_CONFIG.batteryConsumptionRate ∧ (0 : ℚ) ≤ (2 : ℚ)
    ∧ (0 : ℚ) ≤ exDeployed.satellite.battery
    ∧ exDeployed.satellite.battery ≤ GAME_CONFIG.maxBattery
    ∧ (0 ≤ (updateGameState mathModel GAME_CONFIG 0 exDeployed noInputs 2 none
          none).satellite.battery ∧
        (updateGameState mathModel GAME_CONFIG 0 exDeployed noInputs 2 none
          none).satellite.battery ≤ GAME_CONFIG.maxBattery) := by
  refine ⟨by norm_num [GAME_CONFIG], by norm_num, by norm_num [exDeployed, exPaused],
    by norm_num [exDeployed, exPaused, GAME_CONFIG], ?_⟩
  exact c4_battery_clamped mathModel GAME_CONFIG 0 exDeployed noInputs 2 none none
    (by norm_num [GAME_CONFIG]) (by norm_num) (by norm_num [exDeployed, exPaused])
    (by norm_num [exDeployed, exPaused, GAME_CONFIG])

/-- A concrete playing state whose satellite sits exactly at the planet
center while its single orb is already collected: the win condition and the
collision condition hold in the same step. -/
def exC2 : GameState where
  satellite := ⟨⟨400, 300⟩, ⟨0, 0⟩, 0, 50⟩
  planet := ⟨⟨400, 300⟩, 140, 1000⟩
  orbs := [⟨0, ⟨600, 300⟩, ⟨0, 0⟩, 15, true⟩]
  score := 800
  gameStatus := GameStatus.playing
  isPaused := false
  collectionEffects := []
  crashBurst := none
  solarPanelsDeployed := false
  solarPanelDeployment := 3/10
  showTrajectoryPrediction := true
  sunAngle := 0

/-- Claim C5: collection is one-way: an orb that enters the step collected
leaves it collected, `updateOrbPosition` freezes a collected orb, and
`checkOrbCollection` only ever reports ids of uncollected orbs. -/
theorem c5_collection_one_way (m : MathLib) (cfg : GameConfig) (now : ℚ) (s : GameState)
    (t : ThrustInputs) (dt : ℚ) (w h : Option ℚ) (i : ℕ) (hi : i < s.orbs.length)
    (hc : (s.orbs.get ⟨i, hi⟩).collected = true) :
    (∃ o, (updateGameState m cfg now s t dt w h).orbs.get? i = some o ∧ o.collected = true)
    ∧ updateOrbPosition m (s.orbs.get ⟨i, hi⟩) s.planet dt = s.orbs.get ⟨i, hi⟩
    ∧ (∀ (sat : Satellite) (orbs : List Orb) (oid : ℤ),
        oid ∈ checkOrbCollection m cfg sat orbs →
          ∃ o, o ∈ orbs ∧ o.id = oid ∧ o.collected = false) := by
  have hupd : updateOrbPosition m (s.orbs.get ⟨i, hi⟩) s.planet dt = s.orbs.get ⟨i, hi⟩ := by
    rw [updateOrbPosition, if_pos hc]
  refine ⟨?_, hupd, ?_⟩
  · rw [updateGameState]
    split
    · exact ⟨s.orbs.get ⟨i, hi⟩, List.get?_eq_get hi, hc⟩
    · dsimp
      rw [orbsAfterCollection, orbsAfterMotion, List.get?_map, List.get?_map,
        List.get?_eq_get hi, Option.map_some', Option.map_some', hupd]
      refine ⟨_, rfl, ?_⟩
      split
      · rfl
      · exact hc
  · intro sat orbs oid hmem
    rw [checkOrbCollection] at hmem
    simp only [List.mem_map, List.mem_filter, Bool.and_eq_true, Bool.not_eq_true',
      decide_eq_true_eq] at hmem
    obtain ⟨o, ⟨ho, hcoll, _⟩, hid⟩ := hmem
    exact ⟨o, ho, hid, hcoll⟩

/-- Witness for C5 at the concrete state `exC2` whose only orb is collected. -/
theorem c5_witness :
    (0 < exC2.orbs.length)
    ∧ (⟨0, ⟨600, 300⟩, ⟨0, 0⟩, 15, true⟩ : Orb).collected = true
    ∧ (∃ o, (updateGameState mathModel GAME_CONFIG 0 exC2 noInputs 1 none none).orbs.get? 0
          = some o ∧ o.collected = true)
    ∧ updateOrbPosition mathModel (⟨0, ⟨600, 300⟩, ⟨0, 0⟩, 15, true⟩ : Orb) exC2.planet 1
        = ⟨0, ⟨600, 300⟩, ⟨0, 0⟩, 15, true⟩ := by
  have hlen : 0 < exC2.orbs.length := by simp [exC2]
  have hall := c5_collection_one_way mathModel GAME_CONFIG 0 exC2 noInputs 1 none none 0 hlen rfl
  exact ⟨hlen, rfl, hall.1, hall.2.1⟩

/-- Concrete evaluation: at `exC2` with `dt = 0` the stepped satellite is the
input satellite (zero thrust, zero-distance gravity, passive drain over a zero
interval). -/
lemma steppedSatellite_exC2 :
    steppedSatellite mathModel GAME_CONFIG exC2 noInputs 0 = ⟨⟨400, 300⟩, ⟨0, 0⟩, 0, 50⟩ := by
  norm_num [steppedSatellite, satAfterThrust, thrustPhase, localThrust, noInputs,
    updateSatellitePosition, calculateGravity, addVectors, scaleVector, satAfterPower,
    newDeployment, inSunlightCalc, satAfterRotation, exC2, mathModel, wSqrt, GAME_CONFIG,
    Satellite.mk.injEq, Vector2D.mk.injEq]

/-- Concrete evaluation: at `exC2` with `dt = 0` the orb list after collection
processing is the unchanged single collected orb. -/
lemma orbsAfterCollection_exC2 :
    orbsAfterCollection mathModel GAME_CONFIG exC2 noInputs 0
      = [⟨0, ⟨600, 300⟩, ⟨0, 0⟩, 15, true⟩] := by
  norm_num [orbsAfterCollection, orbsAfterMotion, newlyCollectedIds, checkOrbCollection,
    updateOrbPosition, exC2, Orb.mk.injEq, Vector2D.mk.injEq]

/-- Counterexample to Claim C2 as stated: at the concrete state `exC2`
(playing, unpaused, win condition satisfied after this step's collections,
satellite colliding with the planet) the step's resulting status is `lost`,
not `won`: the collision check overrides the already-set `won`. -/
theorem c2_counterexample :
    exC2.gameStatus = GameStatus.playing ∧ exC2.isPaused = false
    ∧ (orbsAfterCollection mathModel GAME_CONFIG exC2 noInputs 0).all
        (fun o => o.collected) = true
    ∧ 0 < (orbsAfterCollection mathModel GAME_CONFIG exC2 noInputs 0).length
    ∧ checkCollisionWithPlanet mathModel GAME_CONFIG
        (steppedSatellite mathModel GAME_CONFIG exC2 noInputs 0) exC2.planet = true
    ∧ (updateGameState mathModel GAME_CONFIG 0 exC2 noInputs 0 none none).gameStatus
        = GameStatus.lost
    ∧ (updateGameState mathModel GAME_CONFIG 0 exC2 noInputs 0 none none).gameStatus
        ≠ GameStatus.won := by
  have hcol : checkCollisionWithPlanet mathModel GAME_CONFIG
      (steppedSatellite mathModel GAME_CONFIG exC2 noInputs 0) exC2.planet = true := by
    rw [steppedSatellite_exC2]
    norm_num [checkCollisionWithPlanet, distance, exC2, mathModel, wSqrt, GAME_CONFIG]
  have hout : (updateGameState mathModel GAME_CONFIG 0 exC2 noInputs 0 none none).gameStatus
      = GameStatus.lost := by
    rw [updateGameState, if_neg (by simp [exC2])]
    dsimp only
    rw [hcol]
    have hoob : checkOutOfBounds GAME_CONFIG (steppedSatellite mathModel GAME_CONFIG exC2
        noInputs 0) (jsOr none GAME_CONFIG.canvasWidth) (jsOr none GAME_CONFIG.canvasHeight)
        = false := by
      rw [steppedSatellite_exC2]
      norm_num [checkOutOfBounds, jsOr, GAME_CONFIG]
    rw [hoob]
    norm_num
  refine ⟨rfl, rfl, ?_, ?_, hcol, hout, ?_⟩
  · rw [orbsAfterCollection_exC2]
    rfl
  · rw [orbsAfterCollection_exC2]
    norm_num
  · rw [hout]
    intro hcontra
    exact GameStatus.noConfusion hcontra

/-- Claim C2 amended: the loss checks of the step run unconditionally after
the win check, so in a step where the win condition holds and the satellite
also collides with the planet or is out of bounds, the resulting status is
`lost`, overriding the `won` the win check just set. -/
theorem c2_amended_loss_overrides_win (m : MathLib) (cfg : GameConfig) (now : ℚ)
    (s : GameState) (t : ThrustInputs) (dt : ℚ) (w h : Option ℚ)
    (hplay : s.gameStatus = GameStatus.playing) (hpause : s.isPaused = false)
    (hwin : (orbsAfterCollection m cfg s t dt).all (fun o => o.collected) = true)
    (hne : 0 < (orbsAfterCollection m cfg s t dt).length)
    (hloss : checkCollisionWithPlanet m cfg (steppedSatellite m cfg s t dt) s.planet = true
      ∨ checkOutOfBounds cfg (steppedSatellite m cfg s t dt) (jsOr w cfg.canvasWidth)
          (jsOr h cfg.canvasHeight) = true) :
    (updateGameState m cfg now s t dt w h).gameStatus = GameStatus.lost := by
  rw [updateGameState, if_neg (by simp [hplay, hpause])]
  dsimp only
  rcases hloss with hcol | hoob
  · rw [hcol]
    split
    · rfl
    · rfl
  · rw [hoob]
    rfl

/-- Witness for the amended C2 at the concrete state `exC2`. -/
theorem c2_amended_witness :
    exC2.gameStatus = GameStatus.playing ∧ exC2.isPaused = false
    ∧ (updateGameState mathModel GAME_CONFIG 0 exC2 noInputs 0 none none).gameStatus
        = GameStatus.lost := by
  refine ⟨rfl, rfl, ?_⟩
  apply c2_amended_loss_overrides_win mathModel GAME_CONFIG 0 exC2 noInputs 0 none none rfl rfl
  · rw [orbsAfterCollection_exC2]
    rfl
  · rw [orbsAfterCollection_exC2]
    norm_num
  · left
    rw [steppedSatellite_exC2]
    norm_num [checkCollisionWithPlanet, distance, exC2, mathModel, wSqrt, GAME_CONFIG]

/-- Claim C3: in a playing, unpaused step with no planet collision and no
out-of-bounds, the resulting status is `won` exactly when after this step's
collections every orb is collected and the orb list is non-empty; in that case
the score is the input score plus the per-orb points plus the one-time bonus
`floor(battery × 10)`; and a state with no orbs never becomes `won`. -/
theorem c3_win_iff_and_bonus (m : MathLib) (cfg : GameConfig) (now : ℚ) (s : GameState)
    (t : ThrustInputs) (dt : ℚ) (w h : Option ℚ)
    (hplay : s.gameStatus = GameStatus.playing) (hpause : s.isPaused = false)
    (hcol : checkCollisionWithPlanet m cfg (steppedSatellite m cfg s t dt) s.planet = false)
    (hoob : checkOutOfBounds cfg (steppedSatellite m cfg s t dt) (jsOr w cfg.canvasWidth)
      (jsOr h cfg.canvasHeight) = false) :
    ((updateGameState m cfg now s t dt w h).gameStatus = GameStatus.won
      ↔ ((orbsAfterCollection m cfg s t dt).all (fun o => o.collected) = true
          ∧ orbsAfterCollection m cfg s t dt ≠ []))
    ∧ (((orbsAfterCollection m cfg s t dt).all (fun o => o.collected) = true
          ∧ orbsAfterCollection m cfg s t dt ≠ []) →
        (updateGameState m cfg now s t dt w h).score
          = s.score + cfg.pointsPerOrb * ((collectedThisStep m cfg s t dt).length : ℚ)
            + ((jsMathFloor ((steppedSatellite m cfg s t dt).battery * 10) : ℤ) : ℚ))
    ∧ (s.orbs = [] → (updateGameState m cfg now s t dt w h).gameStatus ≠ GameStatus.won) := by
  have hguard : ¬(s.isPaused = true ∨ s.gameStatus ≠ GameStatus.playing) := by
    simp [hplay, hpause]
  have hwinb : ((orbsAfterCollection m cfg s t dt).all (fun o => o.collected)
        && decide (0 < (orbsAfterCollection m cfg s t dt).length)) = true
      ↔ ((orbsAfterCollection m cfg s t dt).all (fun o => o.collected) = true
          ∧ orbsAfterCollection m cfg s t dt ≠ []) := by
    rw [Bool.and_eq_true, decide_eq_true_eq, List.length_pos]
  refine ⟨?_, ?_, ?_⟩
  · rw [updateGameState, if_neg hguard]
    dsimp only
    rw [hoob, hcol]
    simp only [Bool.false_eq_true, if_false]
    rw [hplay]
    split
    · rename_i hB
      exact iff_of_true rfl (hwinb.mp hB)
    · rename_i hB
      exact iff_of_false (by decide) fun hc => hB (hwinb.mpr hc)
  · intro hc
    have hB := hwinb.mpr hc
    rw [updateGameState, if_neg hguard]
    dsimp only
    rw [hB]
    simp only [if_true]
  · intro horbs
    have hempty : orbsAfterCollection m cfg s t dt = [] := by
      rw [orbsAfterCollection, orbsAfterMotion, horbs]
      rfl
    rw [updateGameState, if_neg hguard]
    dsimp only
    rw [hoob, hcol, hempty]
    simp only [Bool.false_eq_true, if_false, List.all_nil, List.length_nil]
    rw [hplay]
    simp

/-- A concrete playing state in which the satellite collects the last orb this
step without colliding and without leaving the bounds. -/
def exC3 : GameState where
  satellite := ⟨⟨430, 300⟩, ⟨0, 0⟩, 0, 100⟩
  planet := ⟨⟨400, 300⟩, 0, 0⟩
  orbs := [⟨0, ⟨400, 310⟩, ⟨0, 0⟩, 25, false⟩]
  score := 0
  gameStatus := GameStatus.playing
  isPaused := false
  collectionEffects := []
  crashBurst := none
  solarPanelsDeployed := false
  solarPanelDeployment := 3/10
  showTrajectoryPrediction := true
  sunAngle := 0

/-- Concrete evaluation: the stepped satellite at `exC3` with `dt = 1` (the
planet is massless there, so gravity contributes nothing; the retracted-panel
drain takes half a unit of charge). -/
lemma steppedSatellite_exC3 :
    steppedSatellite mathModel GAME_CONFIG exC3 noInputs 1 = ⟨⟨430, 300⟩, ⟨0, 0⟩, 0, 199/2⟩ := by
  norm_num [steppedSatellite, satAfterThrust, thrustPhase, localThrust, noInputs,
    updateSatellitePosition, calculateGravity, addVectors, scaleVector, satAfterPower,
    newDeployment, inSunlightCalc, satAfterRotation, exC3, mathModel, wSqrt, GAME_CONFIG,
    Satellite.mk.injEq, Vector2D.mk.injEq]

/-- Concrete evaluation: the single orb of `exC3` after one second of the
debris prescription under the concrete oracle. -/
lemma orbsAfterMotion_exC3 :
    orbsAfterMotion mathModel exC3 1 = [⟨0, ⟨410, 300⟩, ⟨0, 22⟩, 25, false⟩] := by
  norm_num [orbsAfterMotion, updateOrbPosition, exC3, mathModel, wSqrt,
    Orb.mk.injEq, Vector2D.mk.injEq]

/-- Concrete evaluation: the moved orb of `exC3` is within collection range of
the stepped satellite. -/
lemma newlyCollectedIds_exC3 :
    newlyCollectedIds mathModel GAME_CONFIG exC3 noInputs 1 = [0] := by
  rw [newlyCollectedIds, orbsAfterMotion_exC3, steppedSatellite_exC3]
  norm_num [checkOrbCollection, distance, mathModel, wSqrt, GAME_CONFIG, exC3]

/-- Concrete evaluation: after collection processing the orb list of `exC3` is
its single orb, collected. -/
lemma orbsAfterCollection_exC3 :
    orbsAfterCollection mathModel GAME_CONFIG exC3 noInputs 1
      = [⟨0, ⟨410, 300⟩, ⟨0, 22⟩, 25, true⟩] := by
  rw [orbsAfterCollection, orbsAfterMotion_exC3, newlyCollectedIds_exC3]
  norm_num [Orb.mk.injEq, Vector2D.mk.injEq]

/-- Concrete evaluation: exactly one orb is processed as collected at `exC3`. -/
lemma collectedThisStep_exC3 :
    collectedThisStep mathModel GAME_CONFIG exC3 noInputs 1
      = [⟨0, ⟨410, 300⟩, ⟨0, 22⟩, 25, false⟩] := by
  rw [collectedThisStep, orbsAfterMotion_exC3, newlyCollectedIds_exC3]
  norm_num

/-- Witness for C3 at the concrete state `exC3`: the last orb is collected
this step, the status becomes `won`, and the score is the 100 orb points plus
the battery bonus `floor(99.5 × 10) = 995`. -/
theorem c3_witness :
    exC3.gameStatus = GameStatus.playing ∧ exC3.isPaused = false
    ∧ checkCollisionWithPlanet mathModel GAME_CONFIG
        (steppedSatellite mathModel GAME_CONFIG exC3 noInputs 1) exC3.planet = false
    ∧ checkOutOfBounds GAME_CONFIG (steppedSatellite mathModel GAME_CONFIG exC3 noInputs 1)
        (jsOr none GAME_CONFIG.canvasWidth) (jsOr none GAME_CONFIG.canvasHeight) = false
    ∧ ((updateGameState mathModel GAME_CONFIG 0 exC3 noInputs 1 none none).gameStatus
          = GameStatus.won
        ↔ ((orbsAfterCollection mathModel GAME_CONFIG exC3 noInputs 1).all
              (fun o => o.collected) = true
            ∧ orbsAfterCollection mathModel GAME_CONFIG exC3 noInputs 1 ≠ []))
    ∧ (updateGameState mathModel GAME_CONFIG 0 exC3 noInputs 1 none none).gameStatus
        = GameStatus.won
    ∧ (updateGameState mathModel GAME_CONFIG 0 exC3 noInputs 1 none none).score = 1095 := by
  have hcol : checkCollisionWithPlanet mathModel GAME_CONFIG
      (steppedSatellite mathModel GAME_CONFIG exC3 noInputs 1) exC3.planet = false := by
    rw [steppedSatellite_exC3]
    norm_num [checkCollisionWithPlanet, distance, exC3, mathModel, wSqrt, GAME_CONFIG]
  have hoob : checkOutOfBounds GAME_CONFIG (steppedSatellite mathModel GAME_CONFIG exC3
      noInputs 1) (jsOr none GAME_CONFIG.canvasWidth) (jsOr none GAME_CONFIG.canvasHeight)
      = false := by
    rw [steppedSatellite_exC3]
    norm_num [checkOutOfBounds, jsOr, GAME_CONFIG]
  have hmain := c3_win_iff_and_bonus mathModel GAME_CONFIG 0 exC3 noInputs 1 none none
    rfl rfl hcol hoob
  have hwincond : (orbsAfterCollection mathModel GAME_CONFIG exC3 noInputs 1).all
      (fun o => o.collected) = true
      ∧ orbsAfterCollection mathModel GAME_CONFIG exC3 noInputs 1 ≠ [] := by
    rw [orbsAfterCollection_exC3]
    exact ⟨rfl, List.cons_ne_nil _ _⟩
  have hscore : (updateGameState mathModel GAME_CONFIG 0 exC3 noInputs 1 none none).score
      = 1095 := by
    rw [hmain.2.1 hwincond, collectedThisStep_exC3, steppedSatellite_exC3]
    norm_num [jsMathFloor, exC3, GAME_CONFIG]
  exact ⟨rfl, rfl, hcol, hoob, hmain.1, hmain.1.mpr hwincond, hscore⟩

/-- Counterexample to Claim C9 as stated: at the concrete playing, unpaused
state `exC2` with input sunAngle `0 ∈ [0, 2π)` and `dt = 900`, the advanced
angle is `6π` and the single wrap subtraction leaves `4π`, which is outside
`[0, 2π)`. -/
theorem c9_counterexample :
    exC2.gameStatus = GameStatus.playing ∧ exC2.isPaused = false
    ∧ 0 ≤ exC2.sunAngle ∧ exC2.sunAngle < mathPI * 2
    ∧ (updateGameState mathModel GAME_CONFIG 0 exC2 noInputs 900 none none).sunAngle
        = mathPI * 4
    ∧ ¬((updateGameState mathModel GAME_CONFIG 0 exC2 noInputs 900 none none).sunAngle
        < mathPI * 2) := by
  have hval : (updateGameState mathModel GAME_CONFIG 0 exC2 noInputs 900 none none).sunAngle
      = mathPI * 4 := by
    rw [updateGameState, if_neg (by simp [exC2])]
    dsimp only
    norm_num [advanceSunAngle, exC2, mathPI]
  refine ⟨rfl, rfl, by norm_num [exC2], by norm_num [exC2, mathPI], hval, ?_⟩
  rw [hval]
  norm_num [mathPI]

/-- Claim C9 amended: in a playing, unpaused step with input sunAngle in
`[0, 2π)` and `dt ≥ 0`, the output sunAngle is again in `[0, 2π)` provided the
advanced angle `sunAngle + (2π/300)·dt` is not exactly `2π` and stays below
`4π`; the single wrap subtraction of the code cannot reduce larger advances
into range. -/
theorem c9_amended_sun_angle_wrapped (m : MathLib) (cfg : GameConfig) (now : ℚ)
    (s : GameState) (t : ThrustInputs) (dt : ℚ) (w h : Option ℚ)
    (hplay : s.gameStatus = GameStatus.playing) (hpause : s.isPaused = false)
    (h0 : 0 ≤ s.sunAngle) (h1 : s.sunAngle < mathPI * 2) (hdt : 0 ≤ dt)
    (hne : s.sunAngle + mathPI * 2 / 300 * dt ≠ mathPI * 2)
    (hlt : s.sunAngle + mathPI * 2 / 300 * dt < mathPI * 4) :
    0 ≤ (updateGameState m cfg now s t dt w h).sunAngle
    ∧ (updateGameState m cfg now s t dt w h).sunAngle < mathPI * 2 := by
  have hpi : (0 : ℚ) < mathPI := by norm_num [mathPI]
  have hinc : 0 ≤ mathPI * 2 / 300 * dt := by positivity
  rw [updateGameState, if_neg (by simp [hplay, hpause])]
  dsimp only
  rw [advanceSunAngle]
  split
  · rename_i hgt
    constructor
    · linarith
    · linarith
  · rename_i hle
    push_neg at hle
    exact ⟨by linarith, lt_of_le_of_ne hle hne⟩

/-- Witness for the amended C9 at the concrete state `exC2` with `dt = 1`. -/
theorem c9_witness :
    exC2.gameStatus = GameStatus.playing ∧ exC2.isPaused = false
    ∧ 0 ≤ exC2.sunAngle ∧ exC2.sunAngle < mathPI * 2 ∧ (0 : ℚ) ≤ 1
    ∧ exC2.sunAngle + mathPI * 2 / 300 * 1 ≠ mathPI * 2
    ∧ exC2.sunAngle + mathPI * 2 / 300 * 1 < mathPI * 4
    ∧ (0 ≤ (updateGameState mathModel GAME_CONFIG 0 exC2 noInputs 1 none none).sunAngle
        ∧ (updateGameState mathModel GAME_CONFIG 0 exC2 noInputs 1 none none).sunAngle
            < mathPI * 2) := by
  refine ⟨rfl, rfl, by norm_num [exC2], by norm_num [exC2, mathPI], by norm_num,
    by norm_num [exC2, mathPI], by norm_num [exC2, mathPI], ?_⟩
  exact c9_amended_sun_angle_wrapped mathModel GAME_CONFIG 0 exC2 noInputs 1 none none
    rfl rfl (by norm_num [exC2]) (by norm_num [exC2, mathPI]) (by norm_num)
    (by norm_num [exC2, mathPI]) (by norm_num [exC2, mathPI])

end SpaceGame
